import Mathlib

/-!
Verification of the consistency-distillation training script
`seaweed_apt/distilled_trainer.py` (function `train_consistency_distillation`
and the `__main__` configuration merge).

Tensors are modelled as lists of rationals, models and optimizer internals as
opaque function parameters (they are external collaborators), and the
imperative training loop as a pure state transformer that also emits a trace
of side effects (directory creation, wandb calls, checkpoint saves, forward
passes).  Machine floats are modelled by exact rationals.
-/

/-- Which model object a forward pass runs on. -/
inductive ModelKind where
  | teacher
  | student
deriving DecidableEq, Repr

/-- Which object is serialized by a `torch.save` call. -/
inductive SavedObj where
  | emaStateDict
  | studentStateDict
  | optimizerState
deriving DecidableEq, Repr

/-- Observable side effects of the training script, in program order.
`forwardPass` records whether the call happens with gradient tracking
enabled (`torch.no_grad` blocks disable it).  `save` records the target
path, which object was serialized, and the parameter snapshot written. -/
inductive Effect where
  | consolePrint
  | mkdir (dir : String)
  | wandbInit
  | wandbLog (step : Nat) (epoch : Nat)
  | wandbFinish
  | forwardPass (model : ModelKind) (gradEnabled : Bool)
  | save (path : String) (obj : SavedObj) (payload : List ℚ)
deriving DecidableEq

/-- One batch of the dataloader: a list of samples (each a flattened tensor)
and the matching text prompts (`samples, text_prompts` at line 117). -/
structure BatchData where
  samples : List (List ℚ)
  textPrompts : List String

/-- External collaborators of the training loop: the T5 text encoder, the
teacher/student forward passes (taking parameters, noise, timestep and
context), the optimizer update (`accelerator.backward`, `optimizer.step`,
`optimizer.zero_grad`), the fresh-noise draw per (epoch, batch), and the
dataloader contents per epoch. -/
structure Env where
  textEncoder : List String → List ℚ
  teacherForward : List ℚ → List ℚ → List ℚ → List ℚ → List ℚ
  studentForward : List ℚ → List ℚ → List ℚ → List ℚ → List ℚ
  optStep : List ℚ → ℚ → List ℚ
  noise : Nat → Nat → List ℚ
  dataloader : Nat → List BatchData

/-- Script configuration relevant to `train_consistency_distillation`. -/
structure TrainConfig where
  numEpochs : Nat
  saveInterval : Nat
  cfgScale : ℚ
  useWandb : Bool
  isMain : Bool
  outputDir : String
  sampleNegPrompt : Option String
  numTrainTimesteps : ℚ

/-- Mutable state of the training loop: the teacher's parameters (never
written), the student's parameters (`distilled_model`), the EMA shadow copy
(`ema_model`), the global step counter and the running loss accumulator. -/
structure TrainState where
  teacherParams : List ℚ
  studentParams : List ℚ
  emaParams : List ℚ
  step : Nat
  totalLoss : ℚ

/-- EMA decay rate, hardcoded at line 103: `ema_decay = 0.995`. -/
def ema_decay : ℚ := 995 / 1000

/-- Line 99: `negative_prompt = config.sample_neg_prompt or ""`.  Python
`or` yields the right operand when the left one is falsy (absent/None or
the empty string). -/
def negativePrompt (sampleNegPrompt : Option String) : String :=
  match sampleNegPrompt with
  | none => ""
  | some s => if s = "" then "" else s

/-- Scalar classifier-free-guidance combination, line 147:
`v_teacher = v_uncond + cfg_scale * (v_cond - v_uncond)`. -/
def cfgCombine (scale u c : ℚ) : ℚ := u + scale * (c - u)

/-- Elementwise CFG combination of the two teacher predictions. -/
def teacherTarget (scale : ℚ) (vUncond vCond : List ℚ) : List ℚ :=
  List.zipWith (fun u c => cfgCombine scale u c) vUncond vCond

/-- Lines 105-108: `update_ema(target_model, source_model, decay)` performs
`target_param.data.mul_(decay).add_(source_param.data, alpha=1-decay)` for
each parameter pair, mutating only the target (EMA) parameters.  Modelled as
a transformer on the pair (ema parameters, student parameters). -/
def update_ema (ps : List ℚ × List ℚ) (decay : ℚ) : List ℚ × List ℚ :=
  (List.zipWith (fun t s => t * decay + s * (1 - decay)) ps.1 ps.2, ps.2)

/-- Line 158: `F.mse_loss(v_student, v_teacher)` — mean squared error. -/
def mseLoss (pred target : List ℚ) : ℚ :=
  (List.zipWith (fun a b => (a - b) ^ 2) pred target).sum /
    ((List.zipWith (fun a b => (a - b) ^ 2) pred target).length : ℚ)

/-- Checkpoint path of an interim (step-cadence) save, line 188. -/
def stepCkptPath (dir : String) (n : Nat) : String :=
  dir ++ "/consistency_model_step_" ++ toString n ++ ".pt"

/-- Checkpoint path of an epoch-boundary save, line 195. -/
def epochCkptPath (dir : String) (e : Nat) : String :=
  dir ++ "/consistency_model_epoch_" ++ toString e ++ ".pt"

/-- Checkpoint path of the final save, line 204. -/
def finalCkptPath (dir : String) : String :=
  dir ++ "/consistency_model_final.pt"

/-- Line 119: `context = text_encoder(text_prompts, device)`. -/
def contextOf (env : Env) (batch : BatchData) : List ℚ :=
  env.textEncoder batch.textPrompts

/-- Line 120: `context_null = text_encoder([negative_prompt] * len(text_prompts), device)`. -/
def contextNullOf (env : Env) (cfg : TrainConfig) (batch : BatchData) : List ℚ :=
  env.textEncoder
    (List.replicate batch.textPrompts.length (negativePrompt cfg.sampleNegPrompt))

/-- Line 126: `timestep = torch.ones(samples.shape[0]) * config.num_train_timesteps`. -/
def timestepOf (cfg : TrainConfig) (batch : BatchData) : List ℚ :=
  List.replicate batch.samples.length cfg.numTrainTimesteps

/-- Lines 131-136: unconditional teacher prediction on the drawn noise. -/
def vUncondOf (env : Env) (cfg : TrainConfig) (s : TrainState)
    (epoch bidx : Nat) (batch : BatchData) : List ℚ :=
  env.teacherForward s.teacherParams (env.noise epoch bidx)
    (timestepOf cfg batch) (contextNullOf env cfg batch)

/-- Lines 139-144: conditional teacher prediction on the same noise. -/
def vCondOf (env : Env) (cfg : TrainConfig) (s : TrainState)
    (epoch bidx : Nat) (batch : BatchData) : List ℚ :=
  env.teacherForward s.teacherParams (env.noise epoch bidx)
    (timestepOf cfg batch) (contextOf env batch)

/-- Line 147: the CFG-combined teacher target of this distillation step. -/
def vTeacherOf (env : Env) (cfg : TrainConfig) (s : TrainState)
    (epoch bidx : Nat) (batch : BatchData) : List ℚ :=
  teacherTarget cfg.cfgScale (vUncondOf env cfg s epoch bidx batch)
    (vCondOf env cfg s epoch bidx batch)

/-- Lines 150-155: the student's prediction with positive conditioning. -/
def vStudentOf (env : Env) (cfg : TrainConfig) (s : TrainState)
    (epoch bidx : Nat) (batch : BatchData) : List ℚ :=
  env.studentForward s.studentParams (env.noise epoch bidx)
    (timestepOf cfg batch) (contextOf env batch)

/-- Line 158: the scalar MSE loss of this batch. -/
def lossOf (env : Env) (cfg : TrainConfig) (s : TrainState)
    (epoch bidx : Nat) (batch : BatchData) : ℚ :=
  mseLoss (vStudentOf env cfg s epoch bidx batch) (vTeacherOf env cfg s epoch bidx batch)

/-- Lines 161-163: student parameters after backward pass, optimizer step
and gradient reset (optimizer internals are an external collaborator). -/
def studentAfterOpt (env : Env) (cfg : TrainConfig) (s : TrainState)
    (epoch bidx : Nat) (batch : BatchData) : List ℚ :=
  env.optStep s.studentParams (lossOf env cfg s epoch bidx batch)

/-- Lines 117-191: one iteration of the inner batch loop.  Computes the CFG
target from two no-grad teacher forward passes, one student forward pass with
gradients, the optimizer update, then the EMA update (line 166), bumps the
stats (lines 169-170), and emits the wandb log (173-179), the progress print
(182-184) and the interim EMA checkpoint (187-191) when their guards hold. -/
def runBatch (env : Env) (cfg : TrainConfig) (s : TrainState)
    (epoch bidx : Nat) (batch : BatchData) : TrainState × List Effect :=
  let studentNew := studentAfterOpt env cfg s epoch bidx batch
  let emaNew := (update_ema (s.emaParams, studentNew) ema_decay).1
  let stepNew := s.step + 1
  let sNew : TrainState :=
    { teacherParams := s.teacherParams
      studentParams := studentNew
      emaParams := emaNew
      step := stepNew
      totalLoss := s.totalLoss + lossOf env cfg s epoch bidx batch }
  let fwdEffs : List Effect :=
    [Effect.forwardPass ModelKind.teacher false,
     Effect.forwardPass ModelKind.teacher false,
     Effect.forwardPass ModelKind.student true]
  let logEffs : List Effect :=
    if cfg.useWandb && cfg.isMain && bidx % 5 == 0 then
      [Effect.wandbLog stepNew (epoch + 1)] else []
  let printEffs : List Effect :=
    if cfg.isMain && bidx % 10 == 0 then [Effect.consolePrint] else []
  let saveEffs : List Effect :=
    if stepNew % cfg.saveInterval == 0 && cfg.isMain then
      [Effect.save (stepCkptPath cfg.outputDir stepNew) SavedObj.emaStateDict emaNew]
    else []
  (sNew, fwdEffs ++ logEffs ++ printEffs ++ saveEffs)

/-- The inner `for batch_idx, (samples, text_prompts) in enumerate(...)`
loop (line 117), threading the state and concatenating the effect traces. -/
def runBatches (env : Env) (cfg : TrainConfig) (s : TrainState)
    (epoch bidx : Nat) : List BatchData → TrainState × List Effect
  | [] => (s, [])
  | b :: rest =>
    let r1 := runBatch env cfg s epoch bidx b
    let r2 := runBatches env cfg r1.1 epoch (bidx + 1) rest
    (r2.1, r1.2 ++ r2.2)

/-- The outer `for epoch in range(num_epochs)` loop (lines 114-200): epoch
header print, the batch loop, the epoch-boundary EMA checkpoint (193-198,
primary process only) and the `total_loss = 0.0` reset (line 200). -/
def runEpochs (env : Env) (cfg : TrainConfig) (s : TrainState)
    (epoch : Nat) : Nat → TrainState × List Effect
  | 0 => (s, [])
  | n + 1 =>
    let r1 := runBatches env cfg s epoch 0 (env.dataloader epoch)
    let epochEffs : List Effect :=
      if cfg.isMain then
        [Effect.save (epochCkptPath cfg.outputDir (epoch + 1)) SavedObj.emaStateDict
           r1.1.emaParams,
         Effect.consolePrint]
      else []
    let s2 : TrainState :=
      { teacherParams := r1.1.teacherParams
        studentParams := r1.1.studentParams
        emaParams := r1.1.emaParams
        step := r1.1.step
        totalLoss := 0 }
    let r3 := runEpochs env cfg s2 (epoch + 1) n
    (r3.1, Effect.consolePrint :: (r1.2 ++ epochEffs ++ r3.2))

/-- Result of a whole run: final state, effect trace, and the value the
function returns (line 212: `return accelerator.unwrap_model(ema_model)`). -/
structure RunResult where
  finalState : TrainState
  trace : List Effect
  returned : List ℚ

/-- The whole of `train_consistency_distillation` (lines 16-212).
`w0` is the pretrained weight snapshot `WanModel.from_pretrained
(checkpoint_dir)`, used to initialize both the student (line 74) and the EMA
model (line 101); `teacher0` is the teacher's parameter set.  Note the
`os.makedirs` at line 57 runs on every process, while wandb init/finish
(60, 209) and every checkpoint write are guarded by
`accelerator.is_main_process`. -/
def runTrain (env : Env) (cfg : TrainConfig) (w0 teacher0 : List ℚ) : RunResult :=
  let s0 : TrainState :=
    { teacherParams := teacher0, studentParams := w0, emaParams := w0
      step := 0, totalLoss := 0 }
  let initEffs : List Effect :=
    [Effect.consolePrint, Effect.mkdir cfg.outputDir] ++
      (if cfg.useWandb && cfg.isMain then [Effect.wandbInit] else [])
  let r1 := runEpochs env cfg s0 0 cfg.numEpochs
  let finalEffs : List Effect :=
    (if cfg.isMain then
       [Effect.save (finalCkptPath cfg.outputDir) SavedObj.emaStateDict r1.1.emaParams,
        Effect.consolePrint]
     else []) ++
      (if cfg.useWandb && cfg.isMain then [Effect.wandbFinish] else [])
  { finalState := r1.1, trace := initEffs ++ r1.2 ++ finalEffs
    returned := r1.1.emaParams }

/-- Extract the paths of all checkpoint writes from a trace. -/
def savePaths (t : List Effect) : List String :=
  t.filterMap fun e =>
    match e with
    | Effect.save p _ _ => some p
    | _ => none

/-- True on checkpoint writes and wandb (metrics sink) calls. -/
def isCkptOrMetricsEffect (e : Effect) : Bool :=
  match e with
  | Effect.save _ _ _ => true
  | Effect.wandbInit => true
  | Effect.wandbLog _ _ => true
  | Effect.wandbFinish => true
  | _ => false

/-- True on a teacher forward pass executed with gradient tracking enabled
(the code never performs one: both teacher calls sit in `torch.no_grad`). -/
def isTeacherGradFwd (e : Effect) : Bool :=
  match e with
  | Effect.forwardPass ModelKind.teacher g => g
  | _ => false

/-- The checkpoint-write contract: every `torch.save` of the script
serializes the (unwrapped) EMA model's state dict, to a path of one of the
three shapes `consistency_model_step_{N}.pt`, `consistency_model_epoch_{E}.pt`
or `consistency_model_final.pt` under the output directory. -/
def savedOk (cfg : TrainConfig) (e : Effect) : Prop :=
  ∀ p o pay, e = Effect.save p o pay →
    o = SavedObj.emaStateDict ∧
    ((∃ n, p = stepCkptPath cfg.outputDir n) ∨
     (∃ k, p = epochCkptPath cfg.outputDir k) ∨
     p = finalCkptPath cfg.outputDir)

/-! Configuration merge (`__main__`, lines 234-241).  `args_dict = vars(args)`
is modelled as an association list from argument names to `Option V` values,
where `none` models Python `None` (the unset sentinel argparse leaves when an
argument has default `None`); the config file is an association list from
keys to `V` values. -/

/-- First-match association-list lookup (`args_dict[key]` / `key in args_dict`). -/
def lookupKey {V : Type} : List (String × V) → String → Option V
  | [], _ => none
  | p :: rest, k => if p.1 = k then some p.2 else lookupKey rest k

/-- `key in args_dict`. -/
def containsKey {V : Type} : List (String × V) → String → Bool
  | [], _ => false
  | p :: rest, k => if p.1 = k then true else containsKey rest k

/-- `args_dict[key] = value`: replace the binding of `k` when present,
append it otherwise. -/
def setKey {V : Type} (m : List (String × V)) (k : String) (v : V) :
    List (String × V) :=
  if containsKey m k then
    m.map (fun p => if p.1 = k then (k, v) else p)
  else m ++ [(k, v)]

/-- One iteration of the merge loop body (lines 239-240):
`if key not in args_dict or args_dict[key] is None: args_dict[key] = value`. -/
def mergeStep {V : Type} (acc : List (String × Option V)) (kv : String × V) :
    List (String × Option V) :=
  match lookupKey acc kv.1 with
  | some (some _) => acc
  | _ => setKey acc kv.1 (some kv.2)

/-- Lines 238-240: `for key, value in config.items(): ...`. -/
def mergeConfig {V : Type} (args : List (String × Option V))
    (cfgFile : List (String × V)) : List (String × Option V) :=
  cfgFile.foldl mergeStep args

/-- Argparse resolution: each argument spec is (name, value passed on the
command line if any, declared default); an argument omitted on the command
line resolves to its default (lines 220-232). -/
def resolveCLI {V : Type} (specs : List (String × Option V × Option V)) :
    List (String × Option V) :=
  specs.map fun s => (s.1, s.2.1.orElse fun _ => s.2.2)

/-! Concrete instantiations used to evaluate the embedding on small inputs. -/

/-- A one-sample, one-prompt batch. -/
def batchC : BatchData := { samples := [[0]], textPrompts := ["p"] }

/-- A tiny environment whose optimizer moves every parameter by one, so the
student's pre-step and post-step parameters differ. -/
def envP : Env :=
  { textEncoder := fun _ => [2]
    teacherForward := fun _ _ _ ctx => ctx
    studentForward := fun _ _ _ _ => [0]
    optStep := fun p _ => p.map (fun x => x + 1)
    noise := fun _ _ => [0]
    dataloader := fun _ => [batchC] }

/-- A primary-process configuration with one epoch and save interval 1. -/
def cfgC : TrainConfig :=
  { numEpochs := 1, saveInterval := 1, cfgScale := 2, useWandb := false
    isMain := true, outputDir := "out", sampleNegPrompt := none
    numTrainTimesteps := 1000 }

/-- The same configuration seen by a secondary (non-primary) worker. -/
def cfgSec : TrainConfig := { cfgC with isMain := false, useWandb := true }

/-- A one-parameter training state. -/
def stP : TrainState :=
  { teacherParams := [1], studentParams := [1], emaParams := [0], step := 0
    totalLoss := 0 }

/-- Degenerate environment (empty tensors) with 500 batches per epoch. -/
def env4 : Env :=
  { textEncoder := fun _ => []
    teacherForward := fun _ _ _ _ => []
    studentForward := fun _ _ _ _ => []
    optStep := fun p _ => p
    noise := fun _ _ => []
    dataloader := fun _ => List.replicate 500 { samples := [], textPrompts := [] } }

/-- Same environment with 1000 batches per epoch. -/
def env4b : Env :=
  { env4 with dataloader := fun _ => List.replicate 1000 { samples := [], textPrompts := [] } }

/-- `save_interval=350`, two epochs of 500 steps each: 1000 global steps. -/
def cfg4 : TrainConfig :=
  { numEpochs := 2, saveInterval := 350, cfgScale := 15 / 2, useWandb := false
    isMain := true, outputDir := "out", sampleNegPrompt := none
    numTrainTimesteps := 1000 }

/-- `save_interval=350`, one epoch of 1000 steps. -/
def cfg4b : TrainConfig := { cfg4 with numEpochs := 1 }

/-! Helper lemmas. -/

lemma getD_zipWith (f : ℚ → ℚ → ℚ) :
    ∀ (u c : List ℚ) (i : Nat), i < u.length → i < c.length →
      (List.zipWith f u c).getD i 0 = f (u.getD i 0) (c.getD i 0)
  | [], _, i, h, _ => absurd h (by simp)
  | _ :: _, [], i, _, h => absurd h (by simp)
  | a :: u, b :: c, 0, _, _ => rfl
  | a :: u, b :: c, i + 1, h1, h2 =>
      getD_zipWith f u c i (Nat.lt_of_succ_lt_succ h1) (Nat.lt_of_succ_lt_succ h2)

/-! Claim theorems. -/

/-- C1: in every distillation step the teacher target is the classifier-free
guidance combination `uncond + cfg_scale * (cond - uncond)` of the teacher's
two forward passes, elementwise; and on scalars `uncond=1, cond=3,
cfg_scale=7.5` the combination equals 16. -/
theorem C1_cfg_target (env : Env) (cfg : TrainConfig) (s : TrainState)
    (epoch bidx : Nat) (batch : BatchData) (i : Nat)
    (hu : i < (vUncondOf env cfg s epoch bidx batch).length)
    (hc : i < (vCondOf env cfg s epoch bidx batch).length) :
    (vTeacherOf env cfg s epoch bidx batch).getD i 0 =
      (vUncondOf env cfg s epoch bidx batch).getD i 0 +
        cfg.cfgScale * ((vCondOf env cfg s epoch bidx batch).getD i 0 -
          (vUncondOf env cfg s epoch bidx batch).getD i 0) ∧
    cfgCombine (15 / 2) 1 3 = 16 := by
  constructor
  · unfold vTeacherOf teacherTarget
    rw [getD_zipWith _ _ _ _ hu hc]
    rfl
  · norm_num [cfgCombine]

/-- C1 witness: the elementwise CFG identity evaluated on a concrete batch. -/
theorem C1_cfg_target_witness :
    (vTeacherOf envP cfgC stP 0 0 batchC).getD 0 0 =
      (vUncondOf envP cfgC stP 0 0 batchC).getD 0 0 +
        cfgC.cfgScale * ((vCondOf envP cfgC stP 0 0 batchC).getD 0 0 -
          (vUncondOf envP cfgC stP 0 0 batchC).getD 0 0) ∧
    cfgCombine (15 / 2) 1 3 = 16 :=
  C1_cfg_target envP cfgC stP 0 0 batchC 0 (by decide) (by decide)

/-- C2: for every decay in (0,1) and shape-compatible parameter lists, one
EMA update maps each EMA entry to `d*ema + (1-d)*student`, and leaves the
student parameters unchanged. -/
theorem C2_ema_update (d : ℚ) (ema stu : List ℚ)
    (hd0 : 0 < d) (hd1 : d < 1) (i : Nat)
    (hi : i < ema.length) (hj : i < stu.length) :
    (update_ema (ema, stu) d).1.getD i 0 =
      d * ema.getD i 0 + (1 - d) * stu.getD i 0 ∧
    (update_ema (ema, stu) d).2 = stu := by
  refine ⟨?_, rfl⟩
  unfold update_ema
  rw [getD_zipWith _ _ _ _ hi hj]
  ring

/-- C2 witness: one EMA update with decay 0.995 on a two-entry tensor. -/
theorem C2_ema_update_witness :
    (update_ema ([1, 2], [3, 4]) (995 / 1000)).1.getD 0 0 =
      (995 / 1000 : ℚ) * 1 + (1 - 995 / 1000) * 3 ∧
    (update_ema ([1, 2], [3, 4]) (995 / 1000)).2 = [3, 4] :=
  C2_ema_update (995 / 1000) [1, 2] [3, 4] (by norm_num) (by norm_num) 0
    (by decide) (by decide)

/-- C8: an absent or empty negative prompt is treated as the empty string
(the run does not fail), and a non-empty one is kept as is. -/
theorem C8_negative_prompt (s : String) (hs : s ≠ "") :
    negativePrompt none = "" ∧ negativePrompt (some "") = "" ∧
      negativePrompt (some s) = s := by
  refine ⟨rfl, rfl, ?_⟩
  simp [negativePrompt, hs]

/-- C8 witness: evaluated at the concrete prompt "neg". -/
theorem C8_negative_prompt_witness :
    negativePrompt none = "" ∧ negativePrompt (some "") = "" ∧
      negativePrompt (some "neg") = "neg" :=
  C8_negative_prompt "neg" (by decide)

/-- C9: in every iteration the EMA update runs after the optimizer update,
so the new EMA parameters combine the previous EMA parameters with the
student's post-optimizer-step parameters; the last conjunct shows on a
concrete run that combining with the pre-step parameters would differ. -/
theorem C9_ema_after_optimizer (env : Env) (cfg : TrainConfig) (s : TrainState)
    (epoch bidx : Nat) (batch : BatchData) (i : Nat)
    (hi : i < s.emaParams.length)
    (hj : i < (studentAfterOpt env cfg s epoch bidx batch).length) :
    (runBatch env cfg s epoch bidx batch).1.emaParams.getD i 0 =
      ema_decay * s.emaParams.getD i 0 +
        (1 - ema_decay) * (studentAfterOpt env cfg s epoch bidx batch).getD i 0 ∧
    (runBatch env cfg s epoch bidx batch).1.studentParams =
      studentAfterOpt env cfg s epoch bidx batch ∧
    (runBatch envP cfgC stP 0 0 batchC).1.emaParams ≠
      (update_ema (stP.emaParams, stP.studentParams) ema_decay).1 := by
  refine ⟨?_, rfl, ?_⟩
  · show (update_ema (s.emaParams, studentAfterOpt env cfg s epoch bidx batch)
        ema_decay).1.getD i 0 = _
    unfold update_ema
    rw [getD_zipWith _ _ _ _ hi hj]
    ring
  · norm_num [runBatch, update_ema, studentAfterOpt, lossOf, mseLoss,
      vStudentOf, vTeacherOf, vUncondOf, vCondOf, teacherTarget, cfgCombine,
      contextOf, contextNullOf, timestepOf, negativePrompt, ema_decay,
      envP, cfgC, stP, batchC]

/-- C9 witness: evaluated on the concrete one-parameter run. -/
theorem C9_ema_after_optimizer_witness :
    (runBatch envP cfgC stP 0 0 batchC).1.emaParams.getD 0 0 =
      ema_decay * stP.emaParams.getD 0 0 +
        (1 - ema_decay) * (studentAfterOpt envP cfgC stP 0 0 batchC).getD 0 0 ∧
    (runBatch envP cfgC stP 0 0 batchC).1.studentParams =
      studentAfterOpt envP cfgC stP 0 0 batchC ∧
    (runBatch envP cfgC stP 0 0 batchC).1.emaParams ≠
      (update_ema (stP.emaParams, stP.studentParams) ema_decay).1 :=
  C9_ema_after_optimizer envP cfgC stP 0 0 batchC 0 (by decide) (by decide)

/-- C10: the function returns the (unwrapped) EMA model, not the raw student
model; on a concrete run where the optimizer moves the student, the returned
parameters differ from the student's. -/
theorem C10_returns_ema (env : Env) (cfg : TrainConfig) (w0 teacher0 : List ℚ) :
    (runTrain env cfg w0 teacher0).returned =
      (runTrain env cfg w0 teacher0).finalState.emaParams ∧
    (runTrain envP cfgC [0] [0]).returned ≠
      (runTrain envP cfgC [0] [0]).finalState.studentParams :=
  ⟨rfl, by
    norm_num [runTrain, runEpochs, runBatches, runBatch, update_ema,
      studentAfterOpt, lossOf, mseLoss, vStudentOf, vTeacherOf, vUncondOf,
      vCondOf, teacherTarget, cfgCombine, contextOf, contextNullOf,
      timestepOf, negativePrompt, ema_decay, envP, cfgC, stP, batchC]⟩

/-! Structural lemmas about the loop used by the trace-property claims. -/

lemma runBatch_snd_eq (env : Env) (cfg : TrainConfig) (s : TrainState)
    (epoch bidx : Nat) (batch : BatchData) :
    (runBatch env cfg s epoch bidx batch).2 =
      [Effect.forwardPass ModelKind.teacher false,
       Effect.forwardPass ModelKind.teacher false,
       Effect.forwardPass ModelKind.student true] ++
      (if cfg.useWandb && cfg.isMain && bidx % 5 == 0 then
        [Effect.wandbLog (s.step + 1) (epoch + 1)] else []) ++
      (if cfg.isMain && bidx % 10 == 0 then [Effect.consolePrint] else []) ++
      (if (s.step + 1) % cfg.saveInterval == 0 && cfg.isMain then
        [Effect.save (stepCkptPath cfg.outputDir (s.step + 1)) SavedObj.emaStateDict
          (update_ema (s.emaParams,
             studentAfterOpt env cfg s epoch bidx batch) ema_decay).1]
       else []) := rfl

lemma runBatch_fst_teacherParams (env : Env) (cfg : TrainConfig) (s : TrainState)
    (epoch bidx : Nat) (batch : BatchData) :
    (runBatch env cfg s epoch bidx batch).1.teacherParams = s.teacherParams := rfl

lemma runBatch_no_teacherGradFwd (env : Env) (cfg : TrainConfig) (s : TrainState)
    (epoch bidx : Nat) (batch : BatchData) :
    (runBatch env cfg s epoch bidx batch).2.countP isTeacherGradFwd = 0 := by
  rw [runBatch_snd_eq]
  cases h1 : (cfg.useWandb && cfg.isMain && bidx % 5 == 0) <;>
  cases h2 : (cfg.isMain && bidx % 10 == 0) <;>
  cases h3 : ((s.step + 1) % cfg.saveInterval == 0 && cfg.isMain) <;>
    simp [h1, h2, h3, isTeacherGradFwd, List.countP_append, List.countP_cons]

lemma runBatches_fst_teacherParams (env : Env) (cfg : TrainConfig) :
    ∀ (batches : List BatchData) (s : TrainState) (epoch bidx : Nat),
      (runBatches env cfg s epoch bidx batches).1.teacherParams = s.teacherParams
  | [], _, _, _ => rfl
  | b :: rest, s, epoch, bidx => by
      simp only [runBatches]
      rw [runBatches_fst_teacherParams env cfg rest]
      exact runBatch_fst_teacherParams env cfg s epoch bidx b

lemma runBatches_no_teacherGradFwd (env : Env) (cfg : TrainConfig) :
    ∀ (batches : List BatchData) (s : TrainState) (epoch bidx : Nat),
      (runBatches env cfg s epoch bidx batches).2.countP isTeacherGradFwd = 0
  | [], _, _, _ => rfl
  | b :: rest, s, epoch, bidx => by
      simp only [runBatches]
      rw [List.countP_append, runBatch_no_teacherGradFwd,
        runBatches_no_teacherGradFwd env cfg rest]

lemma runEpochs_fst_teacherParams (env : Env) (cfg : TrainConfig) :
    ∀ (n : Nat) (s : TrainState) (epoch : Nat),
      (runEpochs env cfg s epoch n).1.teacherParams = s.teacherParams
  | 0, _, _ => rfl
  | n + 1, s, epoch => by
      simp only [runEpochs]
      rw [runEpochs_fst_teacherParams env cfg n]
      exact runBatches_fst_teacherParams env cfg (env.dataloader epoch) s epoch 0

lemma runEpochs_no_teacherGradFwd (env : Env) (cfg : TrainConfig) :
    ∀ (n : Nat) (s : TrainState) (epoch : Nat),
      (runEpochs env cfg s epoch n).2.countP isTeacherGradFwd = 0
  | 0, _, _ => rfl
  | n + 1, s, epoch => by
      simp only [runEpochs]
      rw [List.countP_cons, List.countP_append, List.countP_append,
        runBatches_no_teacherGradFwd env cfg (env.dataloader epoch),
        runEpochs_no_teacherGradFwd env cfg n]
      cases hm : cfg.isMain <;> simp [hm, isTeacherGradFwd]

/-- C6: the teacher model is never mutated across a whole run (its parameter
set in the final state equals the initial one), and no teacher forward pass
of the run happens with gradient tracking enabled. -/
theorem C6_teacher_immutable (env : Env) (cfg : TrainConfig) (w0 teacher0 : List ℚ) :
    (runTrain env cfg w0 teacher0).finalState.teacherParams = teacher0 ∧
    (runTrain env cfg w0 teacher0).trace.countP isTeacherGradFwd = 0 := by
  constructor
  · show (runEpochs env cfg _ 0 cfg.numEpochs).1.teacherParams = teacher0
    rw [runEpochs_fst_teacherParams]
  · show (_ ++ (runEpochs env cfg _ 0 cfg.numEpochs).2 ++ _).countP isTeacherGradFwd = 0
    rw [List.countP_append, List.countP_append,
      runEpochs_no_teacherGradFwd env cfg cfg.numEpochs]
    cases hw : cfg.useWandb <;> cases hm : cfg.isMain <;>
      simp [hw, hm, isTeacherGradFwd, List.countP_append]

lemma runBatch_secondary (env : Env) (cfg : TrainConfig) (s : TrainState)
    (epoch bidx : Nat) (batch : BatchData) (h : cfg.isMain = false) :
    (runBatch env cfg s epoch bidx batch).2.countP isCkptOrMetricsEffect = 0 := by
  rw [runBatch_snd_eq]
  simp [h, isCkptOrMetricsEffect, List.countP_append, List.countP_cons]

lemma runBatches_secondary (env : Env) (cfg : TrainConfig)
    (h : cfg.isMain = false) :
    ∀ (batches : List BatchData) (s : TrainState) (epoch bidx : Nat),
      (runBatches env cfg s epoch bidx batches).2.countP isCkptOrMetricsEffect = 0
  | [], _, _, _ => rfl
  | b :: rest, s, epoch, bidx => by
      simp only [runBatches]
      rw [List.countP_append, runBatch_secondary env cfg s epoch bidx b h,
        runBatches_secondary env cfg h rest]

lemma runEpochs_secondary (env : Env) (cfg : TrainConfig)
    (h : cfg.isMain = false) :
    ∀ (n : Nat) (s : TrainState) (epoch : Nat),
      (runEpochs env cfg s epoch n).2.countP isCkptOrMetricsEffect = 0
  | 0, _, _ => rfl
  | n + 1, s, epoch => by
      simp only [runEpochs]
      rw [List.countP_cons, List.countP_append, List.countP_append,
        runBatches_secondary env cfg h (env.dataloader epoch),
        runEpochs_secondary env cfg h n]
      simp [h, isCkptOrMetricsEffect]

/-- C3 amended theorem: a secondary (non-primary) worker never writes a
checkpoint and never emits metrics (no wandb init/log/finish), but — contrary
to the original claim — it still performs the unconditional directory
creation of line 57. -/
theorem C3_secondary_no_ckpt_or_metrics (env : Env) (cfg : TrainConfig)
    (w0 teacher0 : List ℚ) (h : cfg.isMain = false) :
    (runTrain env cfg w0 teacher0).trace.countP isCkptOrMetricsEffect = 0 ∧
    Effect.mkdir cfg.outputDir ∈ (runTrain env cfg w0 teacher0).trace := by
  constructor
  · show (_ ++ (runEpochs env cfg _ 0 cfg.numEpochs).2 ++ _).countP _ = 0
    rw [List.countP_append, List.countP_append,
      runEpochs_secondary env cfg h cfg.numEpochs]
    simp [h, isCkptOrMetricsEffect, List.countP_append]
  · show Effect.mkdir cfg.outputDir ∈ _ ++ _ ++ _
    simp [List.mem_append]

/-- C3 witness: the amended theorem evaluated on a concrete secondary run. -/
theorem C3_secondary_no_ckpt_or_metrics_witness :
    (runTrain envP cfgSec [] []).trace.countP isCkptOrMetricsEffect = 0 ∧
    Effect.mkdir cfgSec.outputDir ∈ (runTrain envP cfgSec [] []).trace :=
  C3_secondary_no_ckpt_or_metrics envP cfgSec [] [] rfl

/-- C3 counterexample: the claim "a secondary process never performs
directory creation" is false — on a concrete run with the worker identity
flag set to secondary, the trace contains the `os.makedirs` effect of
line 57. -/
theorem C3_counterexample :
    cfgSec.isMain = false ∧
    Effect.mkdir "out" ∈ (runTrain envP cfgSec [] []).trace := by
  refine ⟨rfl, ?_⟩
  show Effect.mkdir "out" ∈ _ ++ _ ++ _
  simp [List.mem_append, cfgSec, cfgC]

lemma runBatch_savedOk (env : Env) (cfg : TrainConfig) (s : TrainState)
    (epoch bidx : Nat) (batch : BatchData) :
    ∀ e ∈ (runBatch env cfg s epoch bidx batch).2, savedOk cfg e := by
  intro e he p o pay hep
  subst hep
  rw [runBatch_snd_eq] at he
  cases h1 : (cfg.useWandb && cfg.isMain && bidx % 5 == 0) <;>
  cases h2 : (cfg.isMain && bidx % 10 == 0) <;>
  cases h3 : ((s.step + 1) % cfg.saveInterval == 0 && cfg.isMain) <;>
    simp [h1, h2, h3] at he <;>
    exact ⟨he.2.1, Or.inl ⟨s.step + 1, he.1⟩⟩

lemma runBatches_savedOk (env : Env) (cfg : TrainConfig) :
    ∀ (batches : List BatchData) (s : TrainState) (epoch bidx : Nat),
      ∀ e ∈ (runBatches env cfg s epoch bidx batches).2, savedOk cfg e
  | [], _, _, _ => by intro e he; simp [runBatches] at he
  | b :: rest, s, epoch, bidx => by
      intro e he
      simp only [runBatches, List.mem_append] at he
      rcases he with he | he
      · exact runBatch_savedOk env cfg s epoch bidx b e he
      · exact runBatches_savedOk env cfg rest _ epoch (bidx + 1) e he

lemma runEpochs_savedOk (env : Env) (cfg : TrainConfig) :
    ∀ (n : Nat) (s : TrainState) (epoch : Nat),
      ∀ e ∈ (runEpochs env cfg s epoch n).2, savedOk cfg e
  | 0, _, _ => by intro e he; simp [runEpochs] at he
  | n + 1, s, epoch => by
      intro e he
      simp only [runEpochs, List.mem_cons, List.mem_append] at he
      rcases he with he | (he | he) | he
      · intro p o pay hep; rw [he] at hep; exact absurd hep (by simp)
      · exact runBatches_savedOk env cfg (env.dataloader epoch) s epoch 0 e he
      · intro p o pay hep
        subst hep
        cases hm : cfg.isMain <;> simp [hm] at he
        exact ⟨he.2.1, Or.inr (Or.inl ⟨epoch + 1, he.1⟩)⟩
      · exact runEpochs_savedOk env cfg n _ (epoch + 1) e he

/-- C7: every checkpoint write of a run serializes the (unwrapped) EMA
model's state dict — never the optimizer state, never the raw student
weights — and its path has one of the three shapes
`consistency_model_step_{N}.pt`, `consistency_model_epoch_{E}.pt`,
`consistency_model_final.pt` under the output directory. -/
theorem C7_ckpt_contract (env : Env) (cfg : TrainConfig) (w0 teacher0 : List ℚ) :
    ∀ e ∈ (runTrain env cfg w0 teacher0).trace, savedOk cfg e := by
  intro e he
  show savedOk cfg e
  have he2 : e ∈ (_ ++ _ ++ _ : List Effect) := he
  rw [List.mem_append, List.mem_append] at he2
  rcases he2 with (he2 | he2) | he2
  · intro p o pay hep
    subst hep
    cases hw : (cfg.useWandb && cfg.isMain) <;> simp [hw] at he2
  · exact runEpochs_savedOk env cfg cfg.numEpochs _ 0 e he2
  · intro p o pay hep
    subst hep
    cases hw : (cfg.useWandb && cfg.isMain) <;> cases hm : cfg.isMain <;>
      simp [hw, hm] at he2 <;>
      exact ⟨he2.2.1, Or.inr (Or.inr he2.1)⟩

/-- C7 witness: the contract applied to the first interim checkpoint of a
concrete run (save interval 1, primary process). -/
theorem C7_ckpt_contract_witness :
    SavedObj.emaStateDict = SavedObj.emaStateDict ∧
    ((∃ n, stepCkptPath "out" 1 = stepCkptPath cfgC.outputDir n) ∨
     (∃ k, stepCkptPath "out" 1 = epochCkptPath cfgC.outputDir k) ∨
     stepCkptPath "out" 1 = finalCkptPath cfgC.outputDir) :=
  C7_ckpt_contract envP cfgC [] []
    (Effect.save (stepCkptPath "out" 1) SavedObj.emaStateDict []) (by decide)
    (stepCkptPath "out" 1) SavedObj.emaStateDict [] rfl

set_option maxRecDepth 100000 in
/-- C4: with `save_interval=350`, a run reaching global step 1000 performs
exactly 2 interim checkpoint writes, at steps 350 and 700, plus one
epoch-boundary write per epoch, plus exactly one final write, all to
distinct files.  Checked on two such runs: 2 epochs of 500 steps, and 1
epoch of 1000 steps. -/
theorem C4_checkpoint_cadence :
    savePaths (runTrain env4 cfg4 [] []).trace =
      [stepCkptPath "out" 350, epochCkptPath "out" 1, stepCkptPath "out" 700,
       epochCkptPath "out" 2, finalCkptPath "out"] ∧
    (savePaths (runTrain env4 cfg4 [] []).trace).Nodup ∧
    savePaths (runTrain env4b cfg4b [] []).trace =
      [stepCkptPath "out" 350, stepCkptPath "out" 700, epochCkptPath "out" 1,
       finalCkptPath "out"] ∧
    (savePaths (runTrain env4b cfg4b [] []).trace).Nodup := by
  refine ⟨by decide, ?_, by decide, ?_⟩ <;> decide

/-! Lemmas about the configuration merge of `__main__` (lines 234-241). -/

lemma lookupKey_setKey_self {V : Type} (k : String) (v : V) :
    ∀ m : List (String × V), lookupKey (setKey m k v) k = some v
  | [] => by simp [setKey, containsKey, lookupKey]
  | p :: rest => by
      have ih := lookupKey_setKey_self k v rest
      by_cases hp : p.1 = k
      · simp [setKey, containsKey, hp, lookupKey]
      · cases hc : containsKey rest k <;>
          simp [setKey, containsKey, hp, hc, lookupKey] <;>
          simpa [setKey, hc] using ih

lemma lookupKey_map_other {V : Type} (k q : String) (v : V) (hq : q ≠ k) :
    ∀ m : List (String × V),
      lookupKey (m.map fun p => if p.1 = k then (k, v) else p) q = lookupKey m q
  | [] => rfl
  | p :: rest => by
      by_cases hp : p.1 = k
      · have hpq : p.1 ≠ q := by rw [hp]; exact Ne.symm hq
        simp [lookupKey, hp, hpq, Ne.symm hq, lookupKey_map_other k q v hq rest]
      · by_cases hpq : p.1 = q
        · simp [lookupKey, hp, hpq, hq]
        · simp [lookupKey, hp, hpq, lookupKey_map_other k q v hq rest]

lemma lookupKey_append {V : Type} (q : String) :
    ∀ (m m2 : List (String × V)),
      lookupKey (m ++ m2) q =
        match lookupKey m q with
        | some v => some v
        | none => lookupKey m2 q
  | [], _ => rfl
  | p :: rest, m2 => by
      by_cases hp : p.1 = q <;> simp [lookupKey, hp, lookupKey_append q rest m2]

lemma lookupKey_setKey_other {V : Type} (k q : String) (v : V) (hq : q ≠ k)
    (m : List (String × V)) :
    lookupKey (setKey m k v) q = lookupKey m q := by
  unfold setKey
  split
  · exact lookupKey_map_other k q v hq m
  · rw [lookupKey_append]
    cases hm : lookupKey m q <;> simp [lookupKey, Ne.symm hq]

lemma mergeConfig_keeps_set {V : Type} :
    ∀ (cfgFile : List (String × V)) (args : List (String × Option V))
      (k : String) (v : V),
      lookupKey args k = some (some v) →
      lookupKey (mergeConfig args cfgFile) k = some (some v)
  | [], _, _, _, h => h
  | (q, w) :: rest, args, k, v, h => by
      show lookupKey (mergeConfig (mergeStep args (q, w)) rest) k = some (some v)
      refine mergeConfig_keeps_set rest _ k v ?_
      unfold mergeStep
      cases hl : lookupKey args q with
      | some ov =>
        cases ov with
        | some x => exact h
        | none =>
          have hqk : q ≠ k := fun he => by rw [he, h] at hl; simp at hl
          rw [lookupKey_setKey_other q k (some w) (Ne.symm hqk) args]
          exact h
      | none =>
          have hqk : q ≠ k := fun he => by rw [he, h] at hl; simp at hl
          rw [lookupKey_setKey_other q k (some w) (Ne.symm hqk) args]
          exact h

lemma mergeConfig_fills {V : Type} :
    ∀ (cfgFile : List (String × V)) (args : List (String × Option V))
      (k : String) (w : V),
      (lookupKey args k = some none ∨ lookupKey args k = none) →
      lookupKey cfgFile k = some w →
      lookupKey (mergeConfig args cfgFile) k = some (some w)
  | [], _, k, _, _, hc => by simp [lookupKey] at hc
  | (q, x) :: rest, args, k, w, ha, hc => by
      show lookupKey (mergeConfig (mergeStep args (q, x)) rest) k = some (some w)
      by_cases hqk : q = k
      · subst hqk
        have hxw : x = w := by simpa [lookupKey] using hc
        subst hxw
        have hstep : lookupKey (mergeStep args (q, x)) q = some (some x) := by
          unfold mergeStep
          rcases ha with ha | ha <;> rw [ha] <;>
            exact lookupKey_setKey_self q (some x) args
        exact mergeConfig_keeps_set rest _ q x hstep
      · have hc2 : lookupKey rest k = some w := by simpa [lookupKey, hqk] using hc
        have ha2 : lookupKey (mergeStep args (q, x)) k = some none ∨
            lookupKey (mergeStep args (q, x)) k = none := by
          unfold mergeStep
          cases hl : lookupKey args q with
          | some ov =>
            cases ov with
            | some y => exact ha
            | none =>
              rw [lookupKey_setKey_other q k (some x) (Ne.symm hqk) args]
              exact ha
          | none =>
              rw [lookupKey_setKey_other q k (some x) (Ne.symm hqk) args]
              exact ha
        exact mergeConfig_fills rest _ k w ha2 hc2

/-- C5 amended theorem: a command-line argument whose resolved value is
non-None is never overwritten by the config file; a config-file value fills
an argument exactly when the argument resolved to the unset sentinel `None`
(either the key is missing from the args dict or its value is `None`).
An argument omitted on the command line but carrying a non-None argparse
default therefore keeps its default (see the counterexample). -/
theorem C5_config_merge (V : Type) (args : List (String × Option V))
    (cfgFile : List (String × V)) (k : String) :
    (∀ v, lookupKey args k = some (some v) →
      lookupKey (mergeConfig args cfgFile) k = some (some v)) ∧
    (∀ w, lookupKey args k = some none → lookupKey cfgFile k = some w →
      lookupKey (mergeConfig args cfgFile) k = some (some w)) ∧
    (∀ w, lookupKey args k = none → lookupKey cfgFile k = some w →
      lookupKey (mergeConfig args cfgFile) k = some (some w)) :=
  ⟨fun v h => mergeConfig_keeps_set cfgFile args k v h,
   fun w h hc => mergeConfig_fills cfgFile args k w (Or.inl h) hc,
   fun w h hc => mergeConfig_fills cfgFile args k w (Or.inr h) hc⟩

/-- C5 witness: an explicitly set argument survives a conflicting file value,
and a None-valued argument is filled from the file. -/
theorem C5_config_merge_witness :
    lookupKey (mergeConfig [("learning_rate", some (5 : ℤ)), ("wandb_run_name", none)]
      [("learning_rate", 7), ("wandb_run_name", 9)]) "learning_rate" = some (some 5) ∧
    lookupKey (mergeConfig [("learning_rate", some (5 : ℤ)), ("wandb_run_name", none)]
      [("learning_rate", 7), ("wandb_run_name", 9)]) "wandb_run_name" = some (some 9) :=
  ⟨(C5_config_merge ℤ _ _ "learning_rate").1 5 (by decide),
   (C5_config_merge ℤ _ _ "wandb_run_name").2.1 9 (by decide) (by decide)⟩

/-- C5 counterexample: `num_epochs` omitted on the command line resolves to
its argparse default 10 (non-None), and the config-file value 20 does NOT
fill it — refuting "an argument omitted on the command line is filled from
the config file when the file provides it". -/
theorem C5_counterexample :
    lookupKey
      (mergeConfig (resolveCLI [("num_epochs", none, some (10 : ℤ))])
        [("num_epochs", 20)]) "num_epochs" = some (some 10) ∧
    some (some (10 : ℤ)) ≠ some (some (20 : ℤ)) := by
  constructor <;> decide
